import Mathlib

/-!
Verification development for the thread publishing pipeline
(`render_thread.py`, `publish_to_gist.py`, `delete_gist.py`).

The Python sources are shallowly embedded: JSON values are an inductive
type, the normalizer and hasher are pure functions, and the stateful
publisher/deleter are functions from an explicit state (local index plus
recorded side effects) to a new state.  Remote HTTP calls are modelled by
passing the remote system's response as an explicit argument and
recording which calls were issued.
-/

namespace ThreadPublisher

/-- JSON values as decoded by `json.loads`.  Numbers are modelled as
integers: every numeric field the pipeline inspects is an integral
timestamp, and string/object structure is what the claims are about. -/
inductive Json where
  | null : Json
  | bool : Bool → Json
  | num : Int → Json
  | str : String → Json
  | arr : List Json → Json
  | obj : List (String × Json) → Json

/-- `dict.get k` on a decoded JSON object: first binding for the key. -/
def objGet (kvs : List (String × Json)) (k : String) : Option Json :=
  match kvs with
  | [] => none
  | (k', v) :: rest => if k' = k then some v else objGet rest k

/-- Python truthiness of a decoded JSON value (`if x:`). -/
def pyTruthy : Json → Bool
  | Json.null => false
  | Json.bool b => b
  | Json.num n => n ≠ 0
  | Json.str s => s ≠ ""
  | Json.arr xs => !xs.isEmpty
  | Json.obj kvs => !kvs.isEmpty

/-- Uncaught Python exceptions that can escape `normalize_message`:
`AttributeError`/`TypeError` from non-dict access and iteration, and
`OverflowError` from `datetime.fromtimestamp` on an epoch outside the
platform's `time_t` (only `ValueError` and `OSError` are caught). -/
inductive PyErr where
  | attributeError : PyErr
  | typeError : PyErr
  | overflowError : PyErr
deriving DecidableEq

/-- A normalized tool call: `name`/`input`/`output` with defaults. -/
structure ToolCall where
  name : Json
  input : Json
  output : Json

/-- A normalized message as produced by `normalize_message`. -/
structure NormalizedMessage where
  role : Json
  timestamp : Json
  content : Json
  tool_calls : List ToolCall
  line_number : Option Nat

instance : Inhabited NormalizedMessage :=
  ⟨⟨Json.str "unknown", Json.null, Json.str "", [], none⟩⟩

/-- Two-digit zero-padded decimal. -/
def pad2 (n : Nat) : String :=
  if n < 10 then "0" ++ toString n else toString n

/-- Four-digit zero-padded decimal. -/
def pad4 (n : Nat) : String :=
  if n < 10 then "000" ++ toString n
  else if n < 100 then "00" ++ toString n
  else if n < 1000 then "0" ++ toString n
  else toString n

/-- Civil date-time (UTC) of a Unix epoch second, rendered as the
ISO-8601 string `datetime.isoformat()` produces for whole seconds. -/
def isoOfEpoch (n : Int) : String :=
  let days : Int := n.ediv 86400
  let secs : Nat := (n.emod 86400).toNat
  let z : Int := days + 719468
  let era : Int := z.ediv 146097
  let doe : Nat := (z.emod 146097).toNat
  let yoe : Nat := (doe - doe / 1460 + doe / 36524 - doe / 146096) / 365
  let y0 : Int := (yoe : Int) + era * 400
  let doy : Nat := doe - (365 * yoe + yoe / 4 - yoe / 100)
  let mp : Nat := (5 * doy + 2) / 153
  let d : Nat := doy - (153 * mp + 2) / 5 + 1
  let m : Nat := if mp < 10 then mp + 3 else mp - 9
  let y : Int := if m ≤ 2 then y0 + 1 else y0
  pad4 y.toNat ++ "-" ++ pad2 m ++ "-" ++ pad2 d ++ "T" ++
    pad2 (secs / 3600) ++ ":" ++ pad2 (secs / 60 % 60) ++ ":" ++ pad2 (secs % 60)

/-- `datetime.fromtimestamp(n).isoformat()` restricted to the epochs
that fit `time_t`: `some` on success, `none` when the conversion raises
a *caught* `ValueError`/`OSError`.  The success range was measured on
the target platform (glibc, UTC): the largest working epoch is
9999-12-31T23:59:59 and the smallest is 0001-01-02T00:00:00 (one day
into year 1 — below it glibc reports year 0, which `datetime`
rejects with a caught `ValueError`). -/
def epochToIso (n : Int) : Option String :=
  if n < -62135510400 ∨ 253402300799 < n then none else some (isoOfEpoch n)

/-- Whether an integer fits the platform's signed 64-bit `time_t`.
`datetime.fromtimestamp` raises an *uncaught* `OverflowError`
("timestamp out of range for platform time_t") outside this range. -/
def inTimeT (n : Int) : Bool :=
  -9223372036854775808 ≤ n && n ≤ 9223372036854775807

/-- The timestamp normalization block of `normalize_message`: the raw
`msg.get("timestamp")` value is converted only when truthy; a truthy
number within `time_t` (Python `bool` is an `int` subtype, `True`
counts as epoch 1) becomes an ISO string, or `null` when the conversion
raises the caught `ValueError`/`OSError`; a truthy number outside
`time_t` raises `OverflowError`, which the `except (ValueError,
OSError)` clause does *not* catch; truthy strings pass through, any
other truthy value becomes `null`; falsy values (absent, `null`, `0`,
`""`, `false`, empty containers) are stored unchanged. -/
def normalizeTimestamp : Option Json → Except PyErr Json
  | none => Except.ok Json.null
  | some tv =>
    if pyTruthy tv then
      match tv with
      | Json.num n =>
        if inTimeT n then
          Except.ok
            (match epochToIso n with
            | some s => Json.str s
            | none => Json.null)
        else Except.error PyErr.overflowError
      | Json.bool _ =>
        Except.ok
          (match epochToIso 1 with
          | some s => Json.str s
          | none => Json.null)
      | Json.str s => Except.ok (Json.str s)
      | _ => Except.ok Json.null
    else Except.ok tv

/-- One entry of the `tool_calls` loop: `tool_call.get` succeeds only on
a dictionary, otherwise Python raises `AttributeError`. -/
def toolCallOfJson : Json → Except PyErr ToolCall
  | Json.obj kvs =>
    Except.ok
      { name := (objGet kvs "name").getD (Json.str "unknown")
        input := (objGet kvs "input").getD (Json.str "")
        output := (objGet kvs "output").getD (Json.str "") }
  | _ => Except.error PyErr.attributeError

/-- The `for tool_call in msg["tool_calls"]` loop over a list value:
builds the normalized calls in order, the first failure escaping. -/
def mapToolCalls : List Json → Except PyErr (List ToolCall)
  | [] => Except.ok []
  | x :: rest =>
    match toolCallOfJson x with
    | Except.error e => Except.error e
    | Except.ok tc =>
      match mapToolCalls rest with
      | Except.error e => Except.error e
      | Except.ok tcs => Except.ok (tc :: tcs)

/-- The `tool_calls` extraction of `normalize_message`: absent key gives
`[]`; a list value is traversed (`.get` on a non-dict element raises
`AttributeError`); iterating a non-empty string yields characters and a
non-empty dict yields keys, both of which fail at `.get`; iterating a
number, boolean or `null` raises `TypeError`. -/
def extractToolCalls (kvs : List (String × Json)) : Except PyErr (List ToolCall) :=
  match objGet kvs "tool_calls" with
  | none => Except.ok []
  | some (Json.arr xs) => mapToolCalls xs
  | some (Json.str s) => if s = "" then Except.ok [] else Except.error PyErr.attributeError
  | some (Json.obj kvs') => if kvs'.isEmpty then Except.ok [] else Except.error PyErr.attributeError
  | some _ => Except.error PyErr.typeError

/-- `normalize_message` from `render_thread.py`: defined on decoded JSON
objects; on any other decoded value `msg.get` raises `AttributeError`,
which no caller catches.  The source converts the timestamp *before*
the `tool_calls` loop, so a timestamp `OverflowError` escapes first. -/
def normalize_message (msg : Json) (line_num : Option Nat) : Except PyErr NormalizedMessage :=
  match msg with
  | Json.obj kvs =>
    match normalizeTimestamp (objGet kvs "timestamp") with
    | Except.error e => Except.error e
    | Except.ok ts =>
      match extractToolCalls kvs with
      | Except.error e => Except.error e
      | Except.ok tcs =>
        Except.ok
          { role := (objGet kvs "role").getD (Json.str "unknown")
            timestamp := ts
            content := (objGet kvs "content").getD (Json.str "")
            tool_calls := tcs
            line_number := line_num }
  | _ => Except.error PyErr.attributeError

/-- One physical line of the session file, classified the way
`parse_jsonl_session` distinguishes lines: blank after `strip()`,
rejected by `json.loads` (`JSONDecodeError`), or decoded to a value. -/
inductive LineParse where
  | blank : LineParse
  | malformed : LineParse
  | parsed : Json → LineParse

/-- Result of `parse_jsonl_session`: `ioError` models the `IOError`
branch that returns `None`; `crashed` models an exception escaping the
loop (only `json.JSONDecodeError` and `IOError` are caught); `ok` carries
the messages and the line numbers of the skip-and-warn warnings. -/
inductive ParseOutcome where
  | ioError : ParseOutcome
  | crashed : PyErr → ParseOutcome
  | ok : List NormalizedMessage → List Nat → ParseOutcome

/-- The per-line loop of `parse_jsonl_session`, starting at line `n`. -/
def processLines : List LineParse → Nat → Except PyErr (List NormalizedMessage × List Nat)
  | [], _ => Except.ok ([], [])
  | LineParse.blank :: rest, n => processLines rest (n + 1)
  | LineParse.malformed :: rest, n =>
    match processLines rest (n + 1) with
    | Except.error e => Except.error e
    | Except.ok (ms, ws) => Except.ok (ms, n :: ws)
  | LineParse.parsed v :: rest, n =>
    match normalize_message v (some n) with
    | Except.error e => Except.error e
    | Except.ok m =>
      match processLines rest (n + 1) with
      | Except.error e => Except.error e
      | Except.ok (ms, ws) => Except.ok (m :: ms, ws)

/-- `parse_jsonl_session` from `render_thread.py`.  The input is `none`
when opening/reading the file raises `IOError`, otherwise the classified
lines of the file in order; enumeration is 1-based. -/
def parse_jsonl_session : Option (List LineParse) → ParseOutcome
  | none => ParseOutcome.ioError
  | some lines =>
    match processLines lines 1 with
    | Except.error e => ParseOutcome.crashed e
    | Except.ok (ms, ws) => ParseOutcome.ok ms ws

/-- Lower-case hexadecimal digit. -/
def hexDigit (n : Nat) : Char :=
  "0123456789abcdef".toList.getD n '0'

/-- Two lower-case hex digits of a byte. -/
def hex2 (n : Nat) : String :=
  String.mk [hexDigit (n / 16 % 16), hexDigit (n % 16)]

/-- Four lower-case hex digits of a 16-bit value. -/
def hex4 (n : Nat) : String :=
  String.mk [hexDigit (n / 4096 % 16), hexDigit (n / 256 % 16), hexDigit (n / 16 % 16), hexDigit (n % 16)]

/-- `json.dumps` escaping of one character with the default
`ensure_ascii=True`: short escapes for the usual control characters,
`\uXXXX` for remaining characters outside `0x20..0x7e` (a surrogate pair
for astral code points), everything else verbatim. -/
def escChar (c : Char) : String :=
  if c = '"' then "\\\""
  else if c = '\\' then "\\\\"
  else if c = '\n' then "\\n"
  else if c = '\r' then "\\r"
  else if c = '\t' then "\\t"
  else if c.toNat = 8 then "\\b"
  else if c.toNat = 12 then "\\f"
  else if c.toNat < 32 ∨ 126 < c.toNat then
    let n := c.toNat
    if n < 65536 then "\\u" ++ hex4 n
    else "\\u" ++ hex4 (55296 + (n - 65536) / 1024) ++ "\\u" ++ hex4 (56320 + (n - 65536) % 1024)
  else String.singleton c

/-- A JSON string literal as `json.dumps` renders it. -/
def quoteStr (s : String) : String :=
  "\"" ++ String.join (s.data.map escChar) ++ "\""

/-- Insert into a key-sorted list of rendered members. -/
def insertPair (p : String × String) : List (String × String) → List (String × String)
  | [] => [p]
  | q :: rest => if p.1 ≤ q.1 then p :: q :: rest else q :: insertPair p rest

/-- Sort rendered object members by key (`sort_keys=True`; Python and
Lean both compare strings by code point). -/
def sortPairs : List (String × String) → List (String × String)
  | [] => []
  | p :: rest => insertPair p (sortPairs rest)

/-- `json.dumps(v, sort_keys=True, separators=(',', ':'))`: canonical
serialization with sorted keys and no incidental whitespace. -/
def dumps : Json → String
  | Json.null => "null"
  | Json.bool true => "true"
  | Json.bool false => "false"
  | Json.num n => toString n
  | Json.str s => quoteStr s
  | Json.arr xs =>
    "[" ++ String.intercalate "," (xs.attach.map fun x => dumps x.1) ++ "]"
  | Json.obj kvs =>
    let rendered := kvs.attach.map fun kv => (kv.1.1, dumps kv.1.2)
    "\x7b" ++
      String.intercalate "," ((sortPairs rendered).map fun kv => quoteStr kv.1 ++ ":" ++ kv.2) ++
      "\x7d"
decreasing_by
  · have := List.sizeOf_lt_of_mem x.2
    simp at this ⊢
    omega
  · obtain ⟨⟨k, v⟩, hmem⟩ := kv
    have := List.sizeOf_lt_of_mem hmem
    simp at this ⊢
    omega

/-- UTF-8 encoding of one character. -/
def utf8Char (c : Char) : List Nat :=
  let n := c.toNat
  if n < 128 then [n]
  else if n < 2048 then [192 + n / 64, 128 + n % 64]
  else if n < 65536 then [224 + n / 4096, 128 + n / 64 % 64, 128 + n % 64]
  else [240 + n / 262144, 128 + n / 4096 % 64, 128 + n / 64 % 64, 128 + n % 64]

/-- UTF-8 encoding of a string (`str.encode('utf-8')`), as byte values. -/
def utf8Bytes (s : String) : List Nat :=
  (s.data.map utf8Char).flatten

/-- Truncate to 32 bits. -/
def w32 (x : Nat) : Nat := x % 4294967296

/-- 32-bit right rotation. -/
def rotr (n x : Nat) : Nat := w32 ((x >>> n) ||| (x <<< (32 - n)))

/-- SHA-256 round constants. -/
def sha256K : List Nat :=
  [1116352408, 1899447441, 3049323471, 3921009573, 961987163, 1508970993,
   2453635748, 2870763221, 3624381080, 310598401, 607225278, 1426881987,
   1925078388, 2162078206, 2614888103, 3248222580, 3835390401, 4022224774,
   264347078, 604807628, 770255983, 1249150122, 1555081692, 1996064986,
   2554220882, 2821834349, 2952996808, 3210313671, 3336571891, 3584528711,
   113926993, 338241895, 666307205, 773529912, 1294757372, 1396182291,
   1695183700, 1986661051, 2177026350, 2456956037, 2730485921, 2820302411,
   3259730800, 3345764771, 3516065817, 3600352804, 4094571909, 275423344,
   430227734, 506948616, 659060556, 883997877, 958139571, 1322822218,
   1537002063, 1747873779, 1955562222, 2024104815, 2227730452, 2361852424,
   2428436474, 2756734187, 3204031479, 3329325298]

/-- SHA-256 initial hash state. -/
def sha256H0 : List Nat :=
  [1779033703, 3144134277, 1013904242, 2773480762,
   1359893119, 2600822924, 528734635, 1541459225]

/-- 64-bit big-endian bytes. -/
def be64 (n : Nat) : List Nat :=
  [(n >>> 56) % 256, (n >>> 48) % 256, (n >>> 40) % 256, (n >>> 32) % 256,
   (n >>> 24) % 256, (n >>> 16) % 256, (n >>> 8) % 256, n % 256]

/-- 32-bit big-endian bytes. -/
def be32 (n : Nat) : List Nat :=
  [(n >>> 24) % 256, (n >>> 16) % 256, (n >>> 8) % 256, n % 256]

/-- SHA-256 padding: `0x80`, zeros to 56 mod 64, 64-bit bit length. -/
def padMessage (msg : List Nat) : List Nat :=
  let len := msg.length
  msg ++ 128 :: List.replicate ((119 - len % 64) % 64) 0 ++ be64 (8 * len)

/-- Split into 64-byte chunks (fuel-based, enough fuel supplied). -/
def chunksAux : Nat → List Nat → List (List Nat)
  | 0, _ => []
  | _ + 1, [] => []
  | fuel + 1, l => l.take 64 :: chunksAux fuel (l.drop 64)

/-- 64-byte chunks of a padded message. -/
def chunks (l : List Nat) : List (List Nat) := chunksAux l.length l

/-- Big-endian 32-bit words of a byte list. -/
def toWords : List Nat → List Nat
  | a :: b :: c :: d :: rest => (((a * 256 + b) * 256 + c) * 256 + d) :: toWords rest
  | _ => []

/-- SHA-256 Σ0. -/
def bigSigma0 (x : Nat) : Nat := rotr 2 x ^^^ rotr 13 x ^^^ rotr 22 x

/-- SHA-256 Σ1. -/
def bigSigma1 (x : Nat) : Nat := rotr 6 x ^^^ rotr 11 x ^^^ rotr 25 x

/-- SHA-256 σ0. -/
def smallSigma0 (x : Nat) : Nat := rotr 7 x ^^^ rotr 18 x ^^^ (x >>> 3)

/-- SHA-256 σ1. -/
def smallSigma1 (x : Nat) : Nat := rotr 17 x ^^^ rotr 19 x ^^^ (x >>> 10)

/-- Extend the 16 message-schedule words to 64. -/
def extendWords (ws : List Nat) : List Nat :=
  (List.range 48).foldl
    (fun a i =>
      a ++ [w32 (smallSigma1 (a.getD (i + 14) 0) + a.getD (i + 9) 0 +
        smallSigma0 (a.getD (i + 1) 0) + a.getD i 0)])
    ws

/-- One SHA-256 compression round on the 8-word working state. -/
def compressRound (st : List Nat) (kw : Nat × Nat) : List Nat :=
  match st with
  | [a, b, c, d, e, f, g, h] =>
    let ch := (e &&& f) ^^^ ((e ^^^ 4294967295) &&& g)
    let t1 := w32 (h + bigSigma1 e + ch + kw.1 + kw.2)
    let maj := (a &&& b) ^^^ (a &&& c) ^^^ (b &&& c)
    let t2 := w32 (bigSigma0 a + maj)
    [w32 (t1 + t2), a, b, c, w32 (d + t1), e, f, g]
  | other => other

/-- Process one 64-byte chunk. -/
def processChunk (h : List Nat) (chunk : List Nat) : List Nat :=
  let ws := extendWords (toWords chunk)
  let fin := (sha256K.zip ws).foldl compressRound h
  (h.zip fin).map fun p => w32 (p.1 + p.2)

/-- SHA-256 digest (32 bytes) of a byte list. -/
def sha256 (msg : List Nat) : List Nat :=
  ((((chunks (padMessage msg)).foldl processChunk sha256H0).map be32).flatten)

/-- Lower-case hex of a byte list (`hexdigest()`). -/
def bytesToHex (bs : List Nat) : String :=
  String.join (bs.map fun b => hex2 b)

/-- The JSON object built for one tool call inside the hash content. -/
def toolCallJson (tc : ToolCall) : Json :=
  Json.obj [("name", tc.name), ("input", tc.input), ("output", tc.output)]

/-- The identity projection of a message: exactly the four fields that
participate in the hash, in particular not `line_number`. -/
def hashView (m : NormalizedMessage) : Json × Json × Json × List ToolCall :=
  (m.role, m.timestamp, m.content, m.tool_calls)

/-- The per-message dictionary of `compute_thread_hash`. -/
def msgHashJson (m : NormalizedMessage) : Json :=
  Json.obj
    [("role", m.role), ("timestamp", m.timestamp), ("content", m.content),
     ("tool_calls", Json.arr (m.tool_calls.map toolCallJson))]

/-- The `hash_content` dictionary of `compute_thread_hash`. -/
def hashContent (msgs : List NormalizedMessage) : Json :=
  Json.obj [("messages", Json.arr (msgs.map msgHashJson))]

/-- `compute_thread_hash` from `render_thread.py`: SHA-256 hex digest of
the UTF-8 bytes of the canonical serialization of `hash_content`. -/
def compute_thread_hash (msgs : List NormalizedMessage) : String :=
  bytesToHex (sha256 (utf8Bytes (dumps (hashContent msgs))))

/-- The characters removed by the title cleanup regex `[#*`\[\]()]`. -/
def markupChars : String := "#*`[]()"

/-- Python whitespace: the characters matched by `\s` in a unicode
`re` pattern and stripped by `str.strip()` (the two sets coincide:
`str.isspace()` — U+0009..U+000D, U+001C..U+001F, space, U+0085 NEL,
U+00A0 NBSP, U+1680, U+2000..U+200A, U+2028, U+2029, U+202F, U+205F,
U+3000). -/
def isPyWs (c : Char) : Bool :=
  let n := c.toNat
  (9 ≤ n && n ≤ 13) || (28 ≤ n && n ≤ 31) || n == 32 || n == 133 || n == 160 ||
    n == 5760 || (8192 ≤ n && n ≤ 8202) || n == 8232 || n == 8233 || n == 8239 ||
    n == 8287 || n == 12288

/-- `re.sub(r'\s+', ' ', s)`: collapse whitespace runs to one space; the
flag records whether the previous character was part of a run. -/
def collapseWsAux : List Char → Bool → List Char
  | [], _ => []
  | c :: rest, prevWs =>
    if isPyWs c then
      if prevWs then collapseWsAux rest true
      else ' ' :: collapseWsAux rest true
    else c :: collapseWsAux rest false

/-- `str.strip()` on a character list. -/
def stripChars (l : List Char) : List Char :=
  ((l.dropWhile isPyWs).reverse.dropWhile isPyWs).reverse

/-- The title cleanup applied to a chosen user message's content: drop
markup punctuation, collapse whitespace, strip, truncate to 100
characters appending `"..."` when longer. -/
def clean_title (content : String) : String :=
  let noMarkup := content.data.filter fun c => !markupChars.contains c
  let cleaned := stripChars (collapseWsAux noMarkup false)
  String.mk (cleaned.take 100) ++ (if 100 < cleaned.length then "..." else "")

/-- `msg["role"] == "user"` (Python `==` across types is `False`). -/
def isUserRole : Json → Bool
  | Json.str s => s = "user"
  | _ => false

/-- `get_thread_title` from `render_thread.py`. -/
def get_thread_title : List NormalizedMessage → String
  | [] => "Untitled Claude Code Thread"
  | m :: rest =>
    if isUserRole m.role then
      match m.content with
      | Json.str s =>
        if (stripChars s.data).isEmpty then get_thread_title rest else clean_title s
      | _ => get_thread_title rest
    else get_thread_title rest

/-- An entry of the Index Store (`index.json`'s `"threads"` mapping). -/
structure IndexEntry where
  gist_id : String
  gist_url : String
  last_published_at : String
  project_path : Option String
  session_file : Option String
  title : String
deriving DecidableEq

/-- The `"threads"` mapping: a Python dict keyed by thread hash, in
insertion order with unique keys. -/
abbrev Index := List (String × IndexEntry)

/-- Dictionary lookup by thread hash. -/
def lookupIndex : Index → String → Option IndexEntry
  | [], _ => none
  | (k, v) :: rest, h => if k = h then some v else lookupIndex rest h

/-- Python dict assignment `d[h] = e`: replace in place when the key is
present, otherwise append. -/
def dictInsert (idx : Index) (h : String) (e : IndexEntry) : Index :=
  if (lookupIndex idx h).isSome then
    idx.map fun kv => if kv.1 = h then (h, e) else kv
  else idx ++ [(h, e)]

/-- Python `del d[h]`. -/
def eraseKey (idx : Index) (h : String) : Index :=
  idx.filter fun kv => kv.1 != h

/-- The `e.response` a `requests.RequestException` may carry: `ok` is
`Response.__bool__`, i.e. `self.ok` (status below 400), and `body` is
the response body when `.json()` decodes it, holding the optional
`"message"` field.  A failing call attaches either no response
(network error) or the failing non-2xx response, whose `ok` is
`false`. -/
structure ErrResponse where
  ok : Bool
  body : Option (Option String)
deriving DecidableEq

/-- Outcome of a remote create/update HTTP call as the publisher's
`except` block distinguishes it: success carries the response's gist id
and `html_url`; failure carries the exception text and the attached
response, if any. -/
inductive RemoteResult where
  | ok (id : String) (html_url : String)
  | err (excText : String) (resp : Option ErrResponse)
deriving DecidableEq

/-- The stderr lines of the shared `except requests.RequestException`
handler of `create_gist` / `update_gist` / `delete_gist`: the generic
exception line always; the `"GitHub API error: ..."` line only under
`if hasattr(e, 'response') and e.response:` — and `e.response` is
truthy only when the response's status is below 400 (`Response.__bool__`
is `self.ok`), which never holds for the response attached to a failing
call. -/
def requestErrLines (verb : String) (excText : String) (resp : Option ErrResponse) : List String :=
  ("Error " ++ verb ++ " Gist: " ++ excText) ::
    match resp with
    | some r =>
      if r.ok then
        match r.body with
        | some m => ["GitHub API error: " ++ m.getD "Unknown error"]
        | none => []
      else []
    | none => []

/-- `GistPublisher.create_gist`: the `(id, html_url)` of the response on
success, `none` plus the stderr lines on failure. -/
def create_gist (resp : RemoteResult) : Option (String × String) × List String :=
  match resp with
  | RemoteResult.ok id url => (some (id, url), [])
  | RemoteResult.err t b => (none, requestErrLines "creating" t b)

/-- `GistPublisher.update_gist`, same shape as `create_gist`. -/
def update_gist (resp : RemoteResult) : Option (String × String) × List String :=
  match resp with
  | RemoteResult.ok id url => (some (id, url), [])
  | RemoteResult.err t b => (none, requestErrLines "updating" t b)

/-- Which remote call `publish_thread` issued. -/
inductive RemoteCall where
  | create : RemoteCall
  | update (gist_id : String) : RemoteCall
deriving DecidableEq

/-- Publisher state: the loaded index plus the snapshots `save_index`
wrote, in order. -/
structure PubState where
  index : Index
  saves : List Index
deriving DecidableEq

/-- The dictionary `publish_thread` returns on success. -/
structure PublishOutput where
  gist_id : String
  gist_url : String
  permalink : String
  thread_hash : String
  title : String
  action : String
deriving DecidableEq

/-- State, return value, issued remote calls and stderr lines of one
`publish_thread` run. -/
structure PublishResult where
  state : PubState
  output : Option PublishOutput
  calls : List RemoteCall
  errors : List String
deriving DecidableEq

/-- The remote description string `publish_thread` builds. -/
def gistDescription (title created_at : String) : String :=
  "Claude Code Thread: " ++ title ++ " (" ++ created_at ++ ")"

/-- The create branch of `publish_thread` (taken when no index entry
exists for the hash, or when `update_existing` is off). -/
def publishCreate (createResp : RemoteResult) (now : String) (st : PubState)
    (thread_hash title : String) (project_path session_file : Option String) : PublishResult :=
  match create_gist createResp with
  | (some (rid, rurl), _) =>
    let e : IndexEntry :=
      { gist_id := rid, gist_url := rurl, last_published_at := now,
        project_path := project_path, session_file := session_file, title := title }
    let idx' := dictInsert st.index thread_hash e
    { state := { index := idx', saves := st.saves ++ [idx'] }
      output := some
        { gist_id := rid, gist_url := rurl,
          permalink := "https://gistpreview.github.io/?" ++ rid,
          thread_hash := thread_hash, title := title, action := "created" }
      calls := [RemoteCall.create]
      errors := [] }
  | (none, errs) =>
    { state := st, output := none, calls := [RemoteCall.create], errors := errs }

/-- `GistPublisher.publish_thread`.  The remote responses the two
possible HTTP calls would receive are explicit arguments; `now` stands
for `datetime.now().isoformat()`; `title` is the one read from the
metadata file. -/
def publish_thread (createResp updateResp : RemoteResult) (now : String)
    (st : PubState) (thread_hash title : String)
    (project_path session_file : Option String) (update_existing : Bool) : PublishResult :=
  match lookupIndex st.index thread_hash with
  | some e =>
    if update_existing then
      match update_gist updateResp with
      | (some (rid, rurl), _) =>
        let e' := { e with last_published_at := now,
                           project_path := project_path, session_file := session_file }
        let idx' := st.index.map fun kv => if kv.1 = thread_hash then (kv.1, e') else kv
        { state := { index := idx', saves := st.saves ++ [idx'] }
          output := some
            { gist_id := rid, gist_url := rurl,
              permalink := "https://gistpreview.github.io/?" ++ rid,
              thread_hash := thread_hash, title := title, action := "updated" }
          calls := [RemoteCall.update e.gist_id]
          errors := [] }
      | (none, errs) =>
        { state := st, output := none, calls := [RemoteCall.update e.gist_id], errors := errs }
    else publishCreate createResp now st thread_hash title project_path session_file
  | none => publishCreate createResp now st thread_hash title project_path session_file

/-- File-system effects, for the persistence discipline of `save_index`. -/
inductive FsOp where
  | mkdirp (path : String) : FsOp
  | fwrite (path : String) (content : String) : FsOp
  | frename (src : String) (dst : String) : FsOp
deriving DecidableEq

/-- `GistPublisher.save_index`: `ensure_config_dir()` (two mkdirs) then
one direct `open(index_path, 'w')` + `json.dump`. -/
def save_index_ops (configDir indexDir indexPath content : String) : List FsOp :=
  [FsOp.mkdirp configDir, FsOp.mkdirp indexDir, FsOp.fwrite indexPath content]

/-- `GistDeleter.save_index`: mkdir of the index directory then one
direct write. -/
def deleter_save_index_ops (indexDir indexPath content : String) : List FsOp :=
  [FsOp.mkdirp indexDir, FsOp.fwrite indexPath content]

/-- The write-temp-then-rename discipline: some distinct temporary path
is written and later renamed onto the destination. -/
def writesTempThenRename (ops : List FsOp) (dst : String) : Prop :=
  ∃ (tmp c : String) (i j : Nat), i < j ∧ tmp ≠ dst ∧
    ops[i]? = some (FsOp.fwrite tmp c) ∧ ops[j]? = some (FsOp.frename tmp dst)

/-- Whether any rename occurs at all. -/
def hasRename (ops : List FsOp) : Bool :=
  ops.any fun op =>
    match op with
    | FsOp.frename _ _ => true
    | _ => false

/-- Status of the remote DELETE call as `delete_gist` distinguishes it:
`204`, `404`, or anything that makes `raise_for_status` / `requests`
raise (other non-2xx, network failure). -/
inductive DeleteHttp where
  | status204 : DeleteHttp
  | status404 : DeleteHttp
  | failure (excText : String) (resp : Option ErrResponse) : DeleteHttp
deriving DecidableEq

/-- The dictionary `delete_gist` returns on success. -/
structure DeleteResult where
  success : Bool
  gist_id : String
  note : Option String
deriving DecidableEq

/-- `GistDeleter.delete_gist`: needs a configured token (no HTTP call
without one); `204` is success, `404` is success with an
`"already_deleted"` note, anything else is `none`.  Also returns the
stderr lines and whether the HTTP call was issued. -/
def delete_gist (token : Option String) (resp : DeleteHttp) (gist_id : String) :
    Option DeleteResult × List String × Bool :=
  match token with
  | none => (none, ["Error: No GitHub token found in configuration."], false)
  | some _ =>
    match resp with
    | DeleteHttp.status204 =>
      (some { success := true, gist_id := gist_id, note := none }, [], true)
    | DeleteHttp.status404 =>
      (some { success := true, gist_id := gist_id, note := some "already_deleted" }, [], true)
    | DeleteHttp.failure t b => (none, requestErrLines "deleting" t b, true)

/-- Deleter state: configured token, loaded index, saved snapshots. -/
structure DelState where
  token : Option String
  index : Index
  saves : List Index
deriving DecidableEq

/-- State, return value and issued DELETE calls (by gist id) of one
`delete_thread_by_hash` run. -/
structure DeleteByHashResult where
  state : DelState
  result : Option DeleteResult
  remoteCalls : List String
deriving DecidableEq

/-- `GistDeleter.delete_thread_by_hash`.  `confirm` mirrors the
parameter; `userSaysYes` models the interactive `input()` answer. -/
def delete_thread_by_hash (resp : DeleteHttp) (st : DelState) (thread_hash : String)
    (confirm userSaysYes : Bool) : DeleteByHashResult :=
  match lookupIndex st.index thread_hash with
  | none => { state := st, result := none, remoteCalls := [] }
  | some info =>
    if confirm && !userSaysYes then { state := st, result := none, remoteCalls := [] }
    else
      match delete_gist st.token resp info.gist_id with
      | (some r, _, called) =>
        if r.success then
          let idx' := eraseKey st.index thread_hash
          { state := { st with index := idx', saves := st.saves ++ [idx'] }
            result := some r
            remoteCalls := if called then [info.gist_id] else [] }
        else
          { state := st, result := none, remoteCalls := if called then [info.gist_id] else [] }
      | (none, _, called) =>
        { state := st, result := none, remoteCalls := if called then [info.gist_id] else [] }

/-- One gist of the remote `list()` response, with the fields
`cleanup_orphaned_gists` reads. -/
structure RemoteGist where
  id : String
  description : String
  files : List String
  created_at : String
  updated_at : String
  html_url : String
deriving DecidableEq

/-- The fixed artifact filenames this pipeline publishes. -/
def artifactFiles : List String := ["index.html", "thread.json", "metadata.json"]

/-- Substring test (`pat in s`). -/
def strContainsSub (s pat : String) : Bool :=
  (List.range (s.data.length + 1)).any fun i => (s.data.drop i).take pat.data.length == pat.data

/-- The candidate filter of `cleanup_orphaned_gists`: description
contains the fixed prefix, or some file name is one of the fixed
artifact filenames. -/
def matchesConvention (g : RemoteGist) : Bool :=
  strContainsSub g.description "Claude Code Thread:" ||
    g.files.any fun f => artifactFiles.contains f

/-- The gist ids referenced by the Index Store. -/
def knownGistIds (idx : Index) : List String :=
  idx.map fun kv => kv.2.gist_id

/-- Candidates: listed gists matching the naming convention. -/
def candidateGists (gists : List RemoteGist) : List RemoteGist :=
  gists.filter matchesConvention

/-- Orphans: candidates whose id the Index Store does not reference. -/
def orphanSet (gists : List RemoteGist) (idx : Index) : List RemoteGist :=
  (candidateGists gists).filter fun g => !(knownGistIds idx).contains g.id

/-- `GistDeleter.cleanup_orphaned_gists`.  `listing` is the remote
`list()` response (`none` when the request failed); returns the orphan
list (`none` on missing token or failed listing) and the DELETE calls
issued (empty in dry-run mode; in execute mode one per orphan after an
aggregate confirmation, continuing past individual failures). -/
def cleanup_orphaned_gists (st : DelState) (listing : Option (List RemoteGist))
    (dry_run userSaysYes : Bool) : Option (List RemoteGist) × List String :=
  match st.token with
  | none => (none, [])
  | some _ =>
    match listing with
    | none => (none, [])
    | some gists =>
      let orphans := orphanSet gists st.index
      if orphans.isEmpty then (some orphans, [])
      else if dry_run then (some orphans, [])
      else if userSaysYes then (some orphans, orphans.map fun g => g.id)
      else (some orphans, [])

/-- Whether a decoded JSON value is an object. -/
def isObjVal : Json → Bool
  | Json.obj _ => true
  | _ => false

/-- A `tool_calls` field that the normalizer traverses without raising:
absent, or an array whose elements are all objects. -/
def goodToolCallsField (kvs : List (String × Json)) : Bool :=
  match objGet kvs "tool_calls" with
  | none => true
  | some (Json.arr xs) => xs.all isObjVal
  | some _ => false

/-- A `timestamp` field the normalizer handles without an uncaught
`OverflowError`: absent, non-numeric, or a number within `time_t`. -/
def goodTimestampField (kvs : List (String × Json)) : Bool :=
  match objGet kvs "timestamp" with
  | some (Json.num n) => inTimeT n
  | _ => true

/-- Lines on which the session parser provably cannot raise: blank,
malformed, or an object whose `tool_calls` field (if present) is an
array of objects and whose `timestamp` (if numeric) fits `time_t`. -/
def goodLine : LineParse → Bool
  | LineParse.blank => true
  | LineParse.malformed => true
  | LineParse.parsed v =>
    match v with
    | Json.obj kvs => goodToolCallsField kvs && goodTimestampField kvs
    | _ => false

/-- The precondition exactly as the claim states it: every line blank,
malformed, or a JSON object. -/
def claimedSafeLine : LineParse → Bool
  | LineParse.blank => true
  | LineParse.malformed => true
  | LineParse.parsed v => isObjVal v

/-- Total normalization, usable once success is known. -/
def normalizeOk (v : Json) (ln : Option Nat) : NormalizedMessage :=
  match normalize_message v ln with
  | Except.ok m => m
  | Except.error _ => default

/-- The messages a fully successful parse yields, 1-based from `n`:
the decoded object lines, normalized, in file order. -/
def expectedMsgsFrom : List LineParse → Nat → List NormalizedMessage
  | [], _ => []
  | LineParse.blank :: rest, n => expectedMsgsFrom rest (n + 1)
  | LineParse.malformed :: rest, n => expectedMsgsFrom rest (n + 1)
  | LineParse.parsed v :: rest, n => normalizeOk v (some n) :: expectedMsgsFrom rest (n + 1)

/-- The line numbers of the malformed lines, 1-based from `n`. -/
def malformedNumsFrom : List LineParse → Nat → List Nat
  | [], _ => []
  | LineParse.malformed :: rest, n => n :: malformedNumsFrom rest (n + 1)
  | _ :: rest, n => malformedNumsFrom rest (n + 1)

/-- Number of decoded-value lines (the claim's `N`). -/
def countObjLines (lines : List LineParse) : Nat :=
  (lines.filter fun l =>
    match l with
    | LineParse.parsed _ => true
    | _ => false).length

/-- Number of malformed lines (the claim's `M`). -/
def countMalformedLines (lines : List LineParse) : Nat :=
  (lines.filter fun l =>
    match l with
    | LineParse.malformed => true
    | _ => false).length

/-- The claim's description of a title source: role is the human
participant role and the content is a string with visible text. -/
def isTitleSource (m : NormalizedMessage) : Bool :=
  isUserRole m.role &&
    match m.content with
    | Json.str s => !(stripChars s.data).isEmpty
    | _ => false

/-- The content string of a message (defaulting for non-strings). -/
def contentString (m : NormalizedMessage) : String :=
  match m.content with
  | Json.str s => s
  | _ => ""

/-- The timestamp field of a normalization result. -/
def tsOf : Except PyErr NormalizedMessage → Json
  | Except.ok m => m.timestamp
  | Except.error _ => Json.null

/-- How many entries of the mapping carry the given key. -/
def countKey (idx : Index) (h : String) : Nat :=
  (idx.filter fun kv => kv.1 == h).length

/-- Sample remote gist: tracked by the index (id `"A"`). -/
def gistA : RemoteGist :=
  { id := "A", description := "Claude Code Thread: t1 (2024-01-01T00:00:00)"
    files := ["index.html", "thread.json", "metadata.json"]
    created_at := "2024-01-01", updated_at := "2024-01-01", html_url := "https://g/A" }

/-- Sample remote gist: matches the naming convention, untracked. -/
def gistB : RemoteGist :=
  { id := "B", description := "Claude Code Thread: t2 (2024-01-02T00:00:00)"
    files := ["index.html"]
    created_at := "2024-01-02", updated_at := "2024-01-02", html_url := "https://g/B" }

/-- Sample remote gist: unrelated to the pipeline. -/
def gistC : RemoteGist :=
  { id := "C", description := "shopping list"
    files := ["notes.txt"]
    created_at := "2024-01-03", updated_at := "2024-01-03", html_url := "https://g/C" }

/-- Sample index entry tracking `gistA`. -/
def entryA : IndexEntry :=
  { gist_id := "A", gist_url := "https://g/A", last_published_at := "2024-01-01T00:00:00"
    project_path := none, session_file := none, title := "t1" }

/-- Rebuild the per-message hash dictionary from the identity
projection; `msgHashJson` factors through it. -/
def viewToJson : Json × Json × Json × List ToolCall → Json
  | (r, t, c, tcs) =>
    Json.obj
      [("role", r), ("timestamp", t), ("content", c),
       ("tool_calls", Json.arr (tcs.map toolCallJson))]

theorem mapToolCalls_ok (xs : List Json) (h : xs.all isObjVal = true) :
    ∃ ts, mapToolCalls xs = Except.ok ts := by
  induction xs with
  | nil => exact ⟨[], rfl⟩
  | cons x rest ih =>
    rw [List.all_cons, Bool.and_eq_true] at h
    obtain ⟨ts, hts⟩ := ih h.2
    have hx := h.1
    cases x <;> simp [isObjVal] at hx
    rename_i kvs
    obtain ⟨tc, htc⟩ : ∃ tc, toolCallOfJson (Json.obj kvs) = Except.ok tc := ⟨_, rfl⟩
    exact ⟨tc :: ts, by simp [mapToolCalls, htc, hts]⟩

theorem extractToolCalls_ok (kvs : List (String × Json)) (h : goodToolCallsField kvs = true) :
    ∃ ts, extractToolCalls kvs = Except.ok ts := by
  unfold goodToolCallsField at h
  unfold extractToolCalls
  cases hg : objGet kvs "tool_calls" with
  | none => exact ⟨[], rfl⟩
  | some v =>
    rw [hg] at h
    cases v with
    | null => simp at h
    | bool b => simp at h
    | num n => simp at h
    | str s => simp at h
    | arr xs => exact mapToolCalls_ok xs h
    | obj kvs2 => simp at h

theorem normalizeTimestamp_ok (kvs : List (String × Json))
    (h : goodTimestampField kvs = true) :
    ∃ j, normalizeTimestamp (objGet kvs "timestamp") = Except.ok j := by
  unfold goodTimestampField at h
  cases hg : objGet kvs "timestamp" with
  | none => exact ⟨Json.null, rfl⟩
  | some tv =>
    rw [hg] at h
    simp only [normalizeTimestamp]
    by_cases ht : pyTruthy tv = true
    · rw [if_pos ht]
      cases tv with
      | num n =>
        have h' : inTimeT n = true := h
        simp [h']
      | null => exact ⟨_, rfl⟩
      | bool b => exact ⟨_, rfl⟩
      | str s => exact ⟨_, rfl⟩
      | arr xs => exact ⟨_, rfl⟩
      | obj kvs2 => exact ⟨_, rfl⟩
    · rw [if_neg ht]
      exact ⟨tv, rfl⟩

theorem normalize_overflow (kvs : List (String × Json)) (ln : Option Nat) (n : Int)
    (hg : objGet kvs "timestamp" = some (Json.num n)) (hr : inTimeT n = false) :
    normalize_message (Json.obj kvs) ln = Except.error PyErr.overflowError := by
  have hn0 : n ≠ 0 := by
    intro h0
    subst h0
    exact absurd hr (by decide)
  have hts : normalizeTimestamp (objGet kvs "timestamp") = Except.error PyErr.overflowError := by
    rw [hg]
    simp only [normalizeTimestamp]
    rw [if_pos (show pyTruthy (Json.num n) = true by simp [pyTruthy, hn0])]
    rw [if_neg (by simp [hr])]
  simp [normalize_message, hts]

theorem normalize_ok_of_goodLine (v : Json) (ln : Option Nat)
    (h : goodLine (LineParse.parsed v) = true) :
    normalize_message v ln = Except.ok (normalizeOk v ln) := by
  unfold goodLine at h
  cases v with
  | null => simp at h
  | bool b => simp at h
  | num n => simp at h
  | str s => simp at h
  | arr xs => simp at h
  | obj kvs =>
    simp only [Bool.and_eq_true] at h
    obtain ⟨j, hj⟩ := normalizeTimestamp_ok kvs h.2
    obtain ⟨ts, hts⟩ := extractToolCalls_ok kvs h.1
    unfold normalizeOk
    simp [normalize_message, hj, hts]

theorem requestErrLines_failure (verb excText : String) (resp : Option ErrResponse)
    (hresp : ∀ r, resp = some r → r.ok = false) :
    requestErrLines verb excText resp = ["Error " ++ verb ++ " Gist: " ++ excText] := by
  cases resp with
  | none => rfl
  | some r =>
    have hok := hresp r rfl
    simp [requestErrLines, hok]

theorem processLines_ok (lines : List LineParse) :
    ∀ n, lines.all goodLine = true →
      processLines lines n = Except.ok (expectedMsgsFrom lines n, malformedNumsFrom lines n) := by
  induction lines with
  | nil => intro n _; rfl
  | cons l rest ih =>
    intro n hall
    rw [List.all_cons, Bool.and_eq_true] at hall
    cases l with
    | blank => simp [processLines, expectedMsgsFrom, malformedNumsFrom, ih (n + 1) hall.2]
    | malformed => simp [processLines, expectedMsgsFrom, malformedNumsFrom, ih (n + 1) hall.2]
    | parsed v =>
      simp [processLines, normalize_ok_of_goodLine v (some n) hall.1,
        expectedMsgsFrom, malformedNumsFrom, ih (n + 1) hall.2]

theorem expectedMsgsFrom_length (lines : List LineParse) :
    ∀ n, (expectedMsgsFrom lines n).length = countObjLines lines := by
  induction lines with
  | nil => intro n; rfl
  | cons l rest ih =>
    intro n
    cases l <;> simp [expectedMsgsFrom, countObjLines, List.filter_cons, ih (n + 1)]

theorem malformedNumsFrom_length (lines : List LineParse) :
    ∀ n, (malformedNumsFrom lines n).length = countMalformedLines lines := by
  induction lines with
  | nil => intro n; rfl
  | cons l rest ih =>
    intro n
    cases l <;> simp [malformedNumsFrom, countMalformedLines, List.filter_cons, ih (n + 1)]

theorem processLines_crash_of_nonObj (pre : List LineParse) :
    ∀ n, pre.all goodLine = true →
      ∀ (v : Json) (post : List LineParse), isObjVal v = false →
        ∃ e, processLines (pre ++ LineParse.parsed v :: post) n = Except.error e := by
  induction pre with
  | nil =>
    intro n _ v post hv
    refine ⟨PyErr.attributeError, ?_⟩
    have hnm : normalize_message v (some n) = Except.error PyErr.attributeError := by
      cases v with
      | obj kvs => simp [isObjVal] at hv
      | null => rfl
      | bool b => rfl
      | num m => rfl
      | str s => rfl
      | arr xs => rfl
    simp [processLines, hnm]
  | cons l rest ih =>
    intro n hall v post hv
    rw [List.all_cons, Bool.and_eq_true] at hall
    obtain ⟨e, he⟩ := ih (n + 1) hall.2 v post hv
    cases l with
    | blank => exact ⟨e, by simp [processLines, he]⟩
    | malformed => exact ⟨e, by simp [processLines, he]⟩
    | parsed w =>
      exact ⟨e, by simp [processLines, normalize_ok_of_goodLine w (some n) hall.1, he]⟩

theorem lookupIndex_none_countKey (idx : Index) (h : String) :
    lookupIndex idx h = none → countKey idx h = 0 := by
  induction idx with
  | nil => intro _; rfl
  | cons kv rest ih =>
    obtain ⟨k, v⟩ := kv
    intro hl
    by_cases hk : k = h
    · simp [lookupIndex, hk] at hl
    · simp [lookupIndex, hk] at hl
      simp [countKey, List.filter_cons, hk]
      simpa [countKey] using ih hl

theorem lookupIndex_some_countKey (idx : Index) (h : String) (e : IndexEntry) :
    lookupIndex idx h = some e → 1 ≤ countKey idx h := by
  induction idx with
  | nil => intro hl; cases hl
  | cons kv rest ih =>
    obtain ⟨k, v⟩ := kv
    intro hl
    by_cases hk : k = h
    · simp [countKey, List.filter_cons, hk]
    · simp [lookupIndex, hk] at hl
      have := ih hl
      simp [countKey, List.filter_cons, hk]
      simpa [countKey] using this

theorem countKey_append_single (idx : Index) (h : String) (e : IndexEntry) :
    countKey (idx ++ [(h, e)]) h = countKey idx h + 1 := by
  simp [countKey, List.filter_append]

theorem lookupIndex_append_single (idx : Index) (h : String) (e : IndexEntry) :
    lookupIndex idx h = none → lookupIndex (idx ++ [(h, e)]) h = some e := by
  induction idx with
  | nil => intro _; simp [lookupIndex]
  | cons kv rest ih =>
    obtain ⟨k, v⟩ := kv
    intro hl
    by_cases hk : k = h
    · simp [lookupIndex, hk] at hl
    · simp [lookupIndex, hk] at hl ⊢
      exact ih hl

theorem countKey_mapUpdate (idx : Index) (h : String) (e' : IndexEntry) :
    countKey (idx.map fun kv => if kv.1 = h then (kv.1, e') else kv) h = countKey idx h := by
  induction idx with
  | nil => rfl
  | cons kv rest ih =>
    obtain ⟨k, v⟩ := kv
    by_cases hk : k = h
    · simp [countKey, List.filter_cons, hk] at ih ⊢
      exact ih
    · simp [countKey, List.filter_cons, hk] at ih ⊢
      exact ih

theorem lookupIndex_mapUpdate (idx : Index) (h : String) (e e' : IndexEntry) :
    lookupIndex idx h = some e →
      lookupIndex (idx.map fun kv => if kv.1 = h then (kv.1, e') else kv) h = some e' := by
  induction idx with
  | nil => intro hl; cases hl
  | cons kv rest ih =>
    obtain ⟨k, v⟩ := kv
    intro hl
    rw [List.map_cons]
    by_cases hk : k = h
    · rw [if_pos hk]
      simp [lookupIndex, hk]
    · rw [if_neg hk]
      simp [lookupIndex, hk] at hl
      simp [lookupIndex, hk]
      exact ih hl

theorem lookupIndex_eraseKey (idx : Index) (h : String) :
    lookupIndex (eraseKey idx h) h = none := by
  induction idx with
  | nil => rfl
  | cons kv rest ih =>
    obtain ⟨k, v⟩ := kv
    by_cases hk : k = h
    · simpa [eraseKey, List.filter_cons, hk] using ih
    · simp [eraseKey, List.filter_cons, hk] at ih ⊢
      simpa [lookupIndex, hk] using ih

theorem dictInsert_of_none (idx : Index) (h : String) (e : IndexEntry) :
    lookupIndex idx h = none → dictInsert idx h e = idx ++ [(h, e)] := by
  intro hl
  simp [dictInsert, hl]

/-- C2: `compute_thread_hash` is the SHA-256 hexadecimal digest of the
UTF-8 bytes of the canonical JSON serialization (sorted keys, compact
separators) of exactly `role`, `timestamp`, `content`, `tool_calls` per
message, so any two message lists agreeing on those four fields in
order — in particular lists differing only in the diagnostic
`line_number` — hash identically. -/
theorem claim_C2_hash_canonical (m1 m2 : List NormalizedMessage)
    (hview : m1.map hashView = m2.map hashView) :
    compute_thread_hash m1 = compute_thread_hash m2 ∧
    compute_thread_hash m1 = bytesToHex (sha256 (utf8Bytes (dumps (hashContent m1)))) := by
  constructor
  · have h1 : m1.map msgHashJson = (m1.map hashView).map viewToJson := by
      rw [List.map_map]; rfl
    have h2 : m2.map msgHashJson = (m2.map hashView).map viewToJson := by
      rw [List.map_map]; rfl
    have hmap : m1.map msgHashJson = m2.map msgHashJson := by
      rw [h1, h2, hview]
    unfold compute_thread_hash hashContent
    rw [hmap]
  · rfl

/-- Witness for C2: two one-message threads differing only in their
recorded source line number have the same thread hash. -/
theorem claim_C2_witness :
    ([⟨Json.str "user", Json.null, Json.str "Hi", [], some 1⟩] : List NormalizedMessage).map hashView =
      ([⟨Json.str "user", Json.null, Json.str "Hi", [], some 2⟩] : List NormalizedMessage).map hashView ∧
    compute_thread_hash [⟨Json.str "user", Json.null, Json.str "Hi", [], some 1⟩] =
      compute_thread_hash [⟨Json.str "user", Json.null, Json.str "Hi", [], some 2⟩] :=
  ⟨rfl, (claim_C2_hash_canonical _ _ rfl).1⟩

/-- C5 (amended): on a log whose lines are blank, malformed, or JSON
objects whose `tool_calls` field (if present) is an array of objects
and whose `timestamp` (if numeric) fits `time_t`, `parse_jsonl_session`
returns exactly the normalized object lines in file order plus one
line-numbered warning per malformed line, and a total read failure is a
distinct outcome from an empty success. -/
theorem claim_C5_resilient_parsing (lines : List LineParse)
    (hgood : lines.all goodLine = true)
    (hN : 1 ≤ countObjLines lines) :
    parse_jsonl_session (some lines) =
      ParseOutcome.ok (expectedMsgsFrom lines 1) (malformedNumsFrom lines 1) ∧
    (expectedMsgsFrom lines 1).length = countObjLines lines ∧
    (malformedNumsFrom lines 1).length = countMalformedLines lines ∧
    parse_jsonl_session none = ParseOutcome.ioError ∧
    ParseOutcome.ioError ≠ ParseOutcome.ok [] [] := by
  refine ⟨?_, expectedMsgsFrom_length lines 1, malformedNumsFrom_length lines 1, rfl, ?_⟩
  · simp [parse_jsonl_session, processLines_ok lines 1 hgood]
  · intro hcon
    cases hcon

/-- Witness for C5: one valid object line, one malformed line and one
blank line parse to one message and one warning. -/
theorem claim_C5_witness :
    ([LineParse.parsed (Json.obj [("role", Json.str "user"), ("content", Json.str "Hi")]),
        LineParse.malformed, LineParse.blank].all goodLine = true) ∧
    1 ≤ countObjLines
        [LineParse.parsed (Json.obj [("role", Json.str "user"), ("content", Json.str "Hi")]),
          LineParse.malformed, LineParse.blank] ∧
    parse_jsonl_session (some
        [LineParse.parsed (Json.obj [("role", Json.str "user"), ("content", Json.str "Hi")]),
          LineParse.malformed, LineParse.blank]) =
      ParseOutcome.ok
        (expectedMsgsFrom
          [LineParse.parsed (Json.obj [("role", Json.str "user"), ("content", Json.str "Hi")]),
            LineParse.malformed, LineParse.blank] 1)
        (malformedNumsFrom
          [LineParse.parsed (Json.obj [("role", Json.str "user"), ("content", Json.str "Hi")]),
            LineParse.malformed, LineParse.blank] 1) := by
  refine ⟨rfl, by decide, ?_⟩
  exact (claim_C5_resilient_parsing
    [LineParse.parsed (Json.obj [("role", Json.str "user"), ("content", Json.str "Hi")]),
      LineParse.malformed, LineParse.blank] rfl (by decide)).1

/-- Counterexample for C5 as stated: a log consisting of one valid JSON
object line (`tool_calls` bound to `5`) has `N = 1` and `M = 0`, yet the
parse crashes with a `TypeError` instead of returning one message. -/
theorem claim_C5_counterexample :
    countObjLines [LineParse.parsed (Json.obj [("tool_calls", Json.num 5)])] = 1 ∧
    countMalformedLines [LineParse.parsed (Json.obj [("tool_calls", Json.num 5)])] = 0 ∧
    parse_jsonl_session (some [LineParse.parsed (Json.obj [("tool_calls", Json.num 5)])]) =
      ParseOutcome.crashed PyErr.typeError ∧
    ∀ ms ws,
      parse_jsonl_session (some [LineParse.parsed (Json.obj [("tool_calls", Json.num 5)])]) ≠
        ParseOutcome.ok ms ws := by
  refine ⟨rfl, rfl, rfl, ?_⟩
  intro ms ws hcon
  rw [show parse_jsonl_session (some [LineParse.parsed (Json.obj [("tool_calls", Json.num 5)])]) =
        ParseOutcome.crashed PyErr.typeError from rfl] at hcon
  cases hcon

/-- C7 (amended): both `save_index` implementations persist the mapping
with a direct write of the index path, preceded only by directory
creation; no temporary file is written and no rename is performed, so
the write-temp-then-rename discipline is absent. -/
theorem claim_C7_save_is_direct_write (configDir indexDir indexPath content : String) :
    save_index_ops configDir indexDir indexPath content =
      [FsOp.mkdirp configDir, FsOp.mkdirp indexDir, FsOp.fwrite indexPath content] ∧
    deleter_save_index_ops indexDir indexPath content =
      [FsOp.mkdirp indexDir, FsOp.fwrite indexPath content] ∧
    ¬ writesTempThenRename (save_index_ops configDir indexDir indexPath content) indexPath ∧
    ¬ writesTempThenRename (deleter_save_index_ops indexDir indexPath content) indexPath := by
  refine ⟨rfl, rfl, ?_, ?_⟩
  · rintro ⟨tmp, c, i, j, hij, hne, hwi, hwj⟩
    have hmem := List.getElem?_mem hwj
    simp [save_index_ops] at hmem
  · rintro ⟨tmp, c, i, j, hij, hne, hwi, hwj⟩
    have hmem := List.getElem?_mem hwj
    simp [deleter_save_index_ops] at hmem

/-- Counterexample for C7 as stated: at the publisher's real paths, the
emitted operations never write a temporary file and rename it onto the
index file. -/
theorem claim_C7_counterexample :
    ¬ writesTempThenRename
        (save_index_ops "~/.claude/thread-publisher" "~/.claude/thread-publisher"
          "~/.claude/thread-publisher/index.json" "\x7b\"threads\": \x7b\x7d\x7d")
        "~/.claude/thread-publisher/index.json" := by
  rintro ⟨tmp, c, i, j, hij, hne, hwi, hwj⟩
  have hmem := List.getElem?_mem hwj
  simp [save_index_ops] at hmem

/-- C8 (amended): the derived title is the cleanup (markup punctuation
dropped, whitespace collapsed, stripped, truncated to 100 characters
with an ellipsis when longer) of the content of the first message whose
role is `"user"` and whose content is a string with visible text; with
no such message it is the fixed placeholder
`"Untitled Claude Code Thread"`. -/
theorem claim_C8_title_from_first_user_message (msgs : List NormalizedMessage) :
    get_thread_title msgs =
      match msgs.find? isTitleSource with
      | some m => clean_title (contentString m)
      | none => "Untitled Claude Code Thread" := by
  induction msgs with
  | nil => rfl
  | cons m rest ih =>
    by_cases hts : isTitleSource m = true
    · rw [List.find?_cons_of_pos _ hts]
      unfold isTitleSource at hts
      rw [Bool.and_eq_true] at hts
      obtain ⟨hu, hcontent⟩ := hts
      cases hcm : m.content with
      | str s =>
        rw [hcm] at hcontent
        simp only [Bool.not_eq_true'] at hcontent
        simp [get_thread_title, hu, hcm, hcontent, contentString]
      | null => rw [hcm] at hcontent; cases hcontent
      | bool b => rw [hcm] at hcontent; cases hcontent
      | num n => rw [hcm] at hcontent; cases hcontent
      | arr xs => rw [hcm] at hcontent; cases hcontent
      | obj kvs => rw [hcm] at hcontent; cases hcontent
    · rw [List.find?_cons_of_neg _ hts]
      rw [← ih]
      unfold isTitleSource at hts
      by_cases hu : isUserRole m.role
      · cases hcm : m.content with
        | str s =>
          rw [hu, hcm] at hts
          simp only [Bool.true_and, Bool.not_eq_true', Bool.not_eq_false] at hts
          simp [get_thread_title, hu, hcm, hts]
        | null => simp [get_thread_title, hu, hcm]
        | bool b => simp [get_thread_title, hu, hcm]
        | num n => simp [get_thread_title, hu, hcm]
        | arr xs => simp [get_thread_title, hu, hcm]
        | obj kvs => simp [get_thread_title, hu, hcm]
      · simp [get_thread_title, hu]

/-- Counterexample for C8 as stated: with no user message the code
produces `"Untitled Claude Code Thread"`, not the claim's
`"Untitled Thread"`. -/
theorem claim_C8_counterexample :
    get_thread_title [] = "Untitled Claude Code Thread" ∧
    get_thread_title [] ≠ "Untitled Thread" :=
  ⟨rfl, by decide⟩

/-- C9 (amended): in a successfully normalized message, a truthy
(nonzero) integer timestamp becomes the epoch's ISO-8601 string, or
`null` when the conversion raises the caught `ValueError`/`OSError`; a
string timestamp passes through unmodified; the falsy numeric timestamp
`0` is kept as the number `0`, unconverted; and a numeric timestamp
outside the platform's `time_t` raises an uncaught `OverflowError` that
fails the whole message rather than being dropped to `null`. -/
theorem claim_C9_timestamp_normalization (kvs : List (String × Json)) (ln : Option Nat) :
    (∀ m, normalize_message (Json.obj kvs) ln = Except.ok m →
      (∀ n : Int, n ≠ 0 → objGet kvs "timestamp" = some (Json.num n) →
        m.timestamp = (match epochToIso n with | some s => Json.str s | none => Json.null)) ∧
      (∀ s : String, objGet kvs "timestamp" = some (Json.str s) → m.timestamp = Json.str s) ∧
      (objGet kvs "timestamp" = some (Json.num 0) → m.timestamp = Json.num 0)) ∧
    (∀ n : Int, objGet kvs "timestamp" = some (Json.num n) → inTimeT n = false →
      normalize_message (Json.obj kvs) ln = Except.error PyErr.overflowError) := by
  constructor
  · intro m hm
    have hinv : ∃ ts, normalizeTimestamp (objGet kvs "timestamp") = Except.ok ts ∧
        m.timestamp = ts := by
      simp only [normalize_message] at hm
      cases hts : normalizeTimestamp (objGet kvs "timestamp") with
      | error e => rw [hts] at hm; cases hm
      | ok ts =>
        rw [hts] at hm
        cases hext : extractToolCalls kvs with
        | error e => rw [hext] at hm; cases hm
        | ok tcs =>
          rw [hext] at hm
          cases hm
          exact ⟨ts, rfl, rfl⟩
    obtain ⟨ts, hts, hmts⟩ := hinv
    refine ⟨?_, ?_, ?_⟩
    · intro n hn hg
      rw [hg] at hts
      simp only [normalizeTimestamp] at hts
      rw [if_pos (show pyTruthy (Json.num n) = true by simp [pyTruthy, hn])] at hts
      by_cases hr : inTimeT n = true
      · rw [if_pos hr] at hts
        rw [hmts]
        cases hts
        rfl
      · rw [if_neg hr] at hts
        cases hts
    · intro s hg
      rw [hg] at hts
      rw [hmts]
      simp only [normalizeTimestamp] at hts
      by_cases hs : s = ""
      · subst hs
        rw [if_neg (by simp [pyTruthy])] at hts
        cases hts
        rfl
      · rw [if_pos (by simp [pyTruthy, hs])] at hts
        cases hts
        rfl
    · intro hg
      rw [hg] at hts
      rw [hmts]
      simp only [normalizeTimestamp] at hts
      rw [if_neg (by simp [pyTruthy])] at hts
      cases hts
      rfl
  · intro n hg hr
    exact normalize_overflow kvs ln n hg hr

/-- Witness for C9: the timestamp `100` normalizes to the ISO string of
epoch second 100. -/
theorem claim_C9_witness :
    normalize_message (Json.obj [("timestamp", Json.num 100)]) none =
      Except.ok { role := Json.str "unknown", timestamp := Json.str "1970-01-01T00:01:40",
                  content := Json.str "", tool_calls := [], line_number := none } ∧
    ({ role := Json.str "unknown", timestamp := Json.str "1970-01-01T00:01:40",
        content := Json.str "", tool_calls := [], line_number := none } : NormalizedMessage).timestamp =
      (match epochToIso 100 with | some s => Json.str s | none => Json.null) := by
  refine ⟨rfl, ?_⟩
  exact ((claim_C9_timestamp_normalization [("timestamp", Json.num 100)] none).1
    { role := Json.str "unknown", timestamp := Json.str "1970-01-01T00:01:40",
      content := Json.str "", tool_calls := [], line_number := none } rfl).1 100 (by decide) rfl

/-- Counterexample for C9 as stated: the numeric timestamp `0` is falsy
in Python, so it is stored as the number `0` rather than being converted
to an ISO-8601 string. -/
theorem claim_C9_counterexample :
    tsOf (normalize_message (Json.obj [("timestamp", Json.num 0)]) none) = Json.num 0 ∧
    ∀ s : String, Json.num 0 ≠ Json.str s := by
  refine ⟨rfl, ?_⟩
  intro s h
  cases h

/-- C10 (amended): the skip-and-warn tolerance covers only JSON-decode
failures — a decoded non-object line always crashes the whole parse with
an uncaught `AttributeError` — and the parse is total on lines that are
blank, malformed, or objects whose `tool_calls` field (if present) is
an array of objects and whose `timestamp` (if numeric) fits `time_t`;
an object line with a timestamp beyond `time_t` crashes the parse with
an uncaught `OverflowError`. -/
theorem claim_C10_totality_boundary (lines : List LineParse)
    (hgood : lines.all goodLine = true) :
    (∃ ms ws, parse_jsonl_session (some lines) = ParseOutcome.ok ms ws) ∧
    (∀ (pre : List LineParse) (v : Json) (post : List LineParse),
      pre.all goodLine = true → isObjVal v = false →
      ∃ e, parse_jsonl_session (some (pre ++ LineParse.parsed v :: post)) =
        ParseOutcome.crashed e) ∧
    parse_jsonl_session (some [LineParse.parsed (Json.num 5)]) =
      ParseOutcome.crashed PyErr.attributeError ∧
    parse_jsonl_session
        (some [LineParse.parsed (Json.obj [("timestamp", Json.num 9223372036854775808)])]) =
      ParseOutcome.crashed PyErr.overflowError := by
  refine ⟨?_, ?_, rfl, rfl⟩
  · exact ⟨expectedMsgsFrom lines 1, malformedNumsFrom lines 1,
      by simp [parse_jsonl_session, processLines_ok lines 1 hgood]⟩
  · intro pre v post hpre hv
    obtain ⟨e, he⟩ := processLines_crash_of_nonObj pre 1 hpre v post hv
    exact ⟨e, by simp [parse_jsonl_session, he]⟩

/-- Witness for C10: a log of one blank, one malformed and one object
line parses without crashing. -/
theorem claim_C10_witness :
    ([LineParse.blank, LineParse.malformed,
        LineParse.parsed (Json.obj [("role", Json.str "user")])].all goodLine = true) ∧
    ∃ ms ws,
      parse_jsonl_session (some [LineParse.blank, LineParse.malformed,
        LineParse.parsed (Json.obj [("role", Json.str "user")])]) = ParseOutcome.ok ms ws := by
  refine ⟨rfl, ?_⟩
  exact (claim_C10_totality_boundary
    [LineParse.blank, LineParse.malformed,
      LineParse.parsed (Json.obj [("role", Json.str "user")])] rfl).1

/-- Counterexample for C10 as stated: a log satisfying the claim's
precondition (its only line is a JSON object) still crashes, because the
object's `tool_calls` field is a non-empty string. -/
theorem claim_C10_counterexample :
    ([LineParse.parsed (Json.obj [("tool_calls", Json.str "ab")])].all claimedSafeLine = true) ∧
    parse_jsonl_session (some [LineParse.parsed (Json.obj [("tool_calls", Json.str "ab")])]) =
      ParseOutcome.crashed PyErr.attributeError ∧
    ∀ ms ws,
      parse_jsonl_session (some [LineParse.parsed (Json.obj [("tool_calls", Json.str "ab")])]) ≠
        ParseOutcome.ok ms ws := by
  refine ⟨rfl, rfl, ?_⟩
  intro ms ws hcon
  rw [show parse_jsonl_session (some [LineParse.parsed (Json.obj [("tool_calls", Json.str "ab")])]) =
        ParseOutcome.crashed PyErr.attributeError from rfl] at hcon
  cases hcon

/-- C1: when the index holds an entry for the hash and updating is
enabled, `publish_thread` issues the update call on that entry's stored
gist id and, on a successful response, reports action `"updated"` with
that id and refreshes the single index entry in place; with no entry it
issues a create call and on success inserts a new entry and reports
`"created"`; hence publishing the same thread twice from an untracked
state leaves exactly one entry and the second run reports `"updated"`
with the same gist id. -/
theorem claim_C1_idempotent_publish
    (st : PubState) (h now title : String) (pp sf : Option String)
    (e : IndexEntry) (cr : RemoteResult) (uurl : String)
    (hcount : countKey st.index h ≤ 1)
    (hfound : lookupIndex st.index h = some e) :
    (publish_thread cr (RemoteResult.ok e.gist_id uurl) now st h title pp sf true).calls =
      [RemoteCall.update e.gist_id] ∧
    (publish_thread cr (RemoteResult.ok e.gist_id uurl) now st h title pp sf true).output =
      some { gist_id := e.gist_id, gist_url := uurl,
             permalink := "https://gistpreview.github.io/?" ++ e.gist_id,
             thread_hash := h, title := title, action := "updated" } ∧
    lookupIndex
        (publish_thread cr (RemoteResult.ok e.gist_id uurl) now st h title pp sf true).state.index h =
      some { e with last_published_at := now, project_path := pp, session_file := sf } ∧
    countKey
        (publish_thread cr (RemoteResult.ok e.gist_id uurl) now st h title pp sf true).state.index h = 1 ∧
    (∀ (st2 : PubState) (gid curl : String) (ue : Bool), lookupIndex st2.index h = none →
      (publish_thread (RemoteResult.ok gid curl) cr now st2 h title pp sf ue).calls =
        [RemoteCall.create] ∧
      (publish_thread (RemoteResult.ok gid curl) cr now st2 h title pp sf ue).output =
        some { gist_id := gid, gist_url := curl,
               permalink := "https://gistpreview.github.io/?" ++ gid,
               thread_hash := h, title := title, action := "created" } ∧
      lookupIndex
          (publish_thread (RemoteResult.ok gid curl) cr now st2 h title pp sf ue).state.index h =
        some { gist_id := gid, gist_url := curl, last_published_at := now,
               project_path := pp, session_file := sf, title := title } ∧
      countKey
          (publish_thread (RemoteResult.ok gid curl) cr now st2 h title pp sf ue).state.index h = 1) ∧
    (∀ (st0 : PubState) (gid curl uurl2 now2 : String), lookupIndex st0.index h = none →
      ((publish_thread cr (RemoteResult.ok gid uurl2) now2
          (publish_thread (RemoteResult.ok gid curl) cr now st0 h title pp sf true).state
          h title pp sf true).output.map fun o => o.action) = some "updated" ∧
      ((publish_thread cr (RemoteResult.ok gid uurl2) now2
          (publish_thread (RemoteResult.ok gid curl) cr now st0 h title pp sf true).state
          h title pp sf true).output.map fun o => o.gist_id) = some gid ∧
      countKey (publish_thread cr (RemoteResult.ok gid uurl2) now2
          (publish_thread (RemoteResult.ok gid curl) cr now st0 h title pp sf true).state
          h title pp sf true).state.index h = 1) := by
  have hc1 : countKey st.index h = 1 := by
    have := lookupIndex_some_countKey st.index h e hfound
    omega
  refine ⟨?_, ?_, ?_, ?_, ?_, ?_⟩
  · simp [publish_thread, hfound, update_gist]
  · simp [publish_thread, hfound, update_gist]
  · simp only [publish_thread, hfound, update_gist]
    exact lookupIndex_mapUpdate st.index h e _ hfound
  · simp only [publish_thread, hfound, update_gist, if_true]
    rw [countKey_mapUpdate]
    exact hc1
  · intro st2 gid curl ue hnone
    refine ⟨?_, ?_, ?_, ?_⟩
    · cases ue <;> simp [publish_thread, hnone, publishCreate, create_gist]
    · cases ue <;> simp [publish_thread, hnone, publishCreate, create_gist]
    · cases ue <;>
        simp only [publish_thread, hnone, publishCreate, create_gist,
          dictInsert_of_none st2.index h _ hnone] <;>
        exact lookupIndex_append_single st2.index h _ hnone
    · cases ue <;>
        simp only [publish_thread, hnone, publishCreate, create_gist,
          dictInsert_of_none st2.index h _ hnone] <;>
        rw [countKey_append_single, lookupIndex_none_countKey st2.index h hnone]
  · intro st0 gid curl uurl2 now2 hnone
    have hidx : (publish_thread (RemoteResult.ok gid curl) cr now st0 h title pp sf true).state.index =
        st0.index ++ [(h, (⟨gid, curl, now, pp, sf, title⟩ : IndexEntry))] := by
      simp [publish_thread, hnone, publishCreate, create_gist, dictInsert_of_none st0.index h _ hnone]
    have hl2 : lookupIndex
        (publish_thread (RemoteResult.ok gid curl) cr now st0 h title pp sf true).state.index h =
        some (⟨gid, curl, now, pp, sf, title⟩ : IndexEntry) := by
      rw [hidx]
      exact lookupIndex_append_single st0.index h _ hnone
    generalize hst : (publish_thread (RemoteResult.ok gid curl) cr now st0 h title pp sf true).state = st1
    rw [hst] at hidx hl2
    refine ⟨?_, ?_, ?_⟩
    · simp [publish_thread, hl2, update_gist]
    · simp [publish_thread, hl2, update_gist]
    · simp only [publish_thread, hl2, update_gist, if_true]
      rw [hidx, countKey_mapUpdate, countKey_append_single,
        lookupIndex_none_countKey st0.index h hnone]

/-- Witness for C1: with a one-entry index holding the hash, the
publisher issues the update call on the stored gist id. -/
theorem claim_C1_witness :
    countKey [("h1", entryA)] "h1" ≤ 1 ∧
    lookupIndex [("h1", entryA)] "h1" = some entryA ∧
    (publish_thread (RemoteResult.err "boom" none) (RemoteResult.ok entryA.gist_id "https://g/A2")
        "2024-02-02T00:00:00" { index := [("h1", entryA)], saves := [] }
        "h1" "t1" none none true).calls =
      [RemoteCall.update entryA.gist_id] := by
  refine ⟨by decide, rfl, ?_⟩
  exact (claim_C1_idempotent_publish { index := [("h1", entryA)], saves := [] } "h1"
    "2024-02-02T00:00:00" "t1" none none entryA (RemoteResult.err "boom" none) "https://g/A2"
    (by decide) rfl).1

/-- C3 (amended): when the remote create or update call fails,
`publish_thread` returns the state completely unchanged (no entry
inserted or mutated, no save recorded) and surfaces the failure as a
`none` result with exactly the generic stderr line — the response
body's error message is never printed, because `e.response` is falsy
for every response a failing call attaches (`Response.__bool__` is
`self.ok`). -/
theorem claim_C3_remote_failure_no_mutation
    (st : PubState) (h now title excText : String) (pp sf : Option String)
    (resp : Option ErrResponse) (other : RemoteResult)
    (hresp : ∀ r, resp = some r → r.ok = false) :
    (∀ e, lookupIndex st.index h = some e →
      publish_thread other (RemoteResult.err excText resp) now st h title pp sf true =
        { state := st, output := none, calls := [RemoteCall.update e.gist_id],
          errors := ["Error updating Gist: " ++ excText] }) ∧
    (lookupIndex st.index h = none →
      ∀ ue, publish_thread (RemoteResult.err excText resp) other now st h title pp sf ue =
        { state := st, output := none, calls := [RemoteCall.create],
          errors := ["Error creating Gist: " ++ excText] }) ∧
    (∀ e, lookupIndex st.index h = some e →
      publish_thread (RemoteResult.err excText resp) other now st h title pp sf false =
        { state := st, output := none, calls := [RemoteCall.create],
          errors := ["Error creating Gist: " ++ excText] }) ∧
    requestErrLines "updating" excText resp = ["Error updating Gist: " ++ excText] ∧
    requestErrLines "creating" excText resp = ["Error creating Gist: " ++ excText] := by
  refine ⟨?_, ?_, ?_, requestErrLines_failure "updating" excText resp hresp,
    requestErrLines_failure "creating" excText resp hresp⟩
  · intro e hfound
    simp [publish_thread, hfound, update_gist, requestErrLines_failure "updating" excText resp hresp]
  · intro hnone ue
    cases ue <;>
      simp [publish_thread, hnone, publishCreate, create_gist,
        requestErrLines_failure "creating" excText resp hresp]
  · intro e hfound
    simp [publish_thread, hfound, publishCreate, create_gist,
      requestErrLines_failure "creating" excText resp hresp]

/-- Witness for C3: a failed create on an empty index returns failure
and the untouched state, with only the generic stderr line. -/
theorem claim_C3_witness :
    lookupIndex ([] : Index) "h1" = none ∧
    publish_thread (RemoteResult.err "boom" none) (RemoteResult.err "x" none)
        "2024-02-02T00:00:00" { index := [], saves := [] } "h1" "t" none none true =
      { state := { index := [], saves := [] }, output := none, calls := [RemoteCall.create],
        errors := ["Error creating Gist: boom"] } := by
  refine ⟨rfl, ?_⟩
  exact (claim_C3_remote_failure_no_mutation { index := [], saves := [] } "h1"
    "2024-02-02T00:00:00" "t" "boom" none none none (RemoteResult.err "x" none)
    (fun r hr => nomatch hr)).2.1 rfl true

/-- Counterexample for C3 as stated: a failing update whose attached
non-2xx response body carries the message "Bad credentials" emits only
the generic stderr line; the claimed "GitHub API error" surfacing of
the body's message does not happen, since the non-ok response is
falsy under the code's `if hasattr(e, 'response') and e.response:`
guard. -/
theorem claim_C3_counterexample :
    publish_thread (RemoteResult.err "boom" none)
        (RemoteResult.err "401 Client Error"
          (some { ok := false, body := some (some "Bad credentials") }))
        "2024-02-02T00:00:00" { index := [("h1", entryA)], saves := [] }
        "h1" "t1" none none true =
      { state := { index := [("h1", entryA)], saves := [] }, output := none,
        calls := [RemoteCall.update entryA.gist_id],
        errors := ["Error updating Gist: 401 Client Error"] } ∧
    (["Error updating Gist: 401 Client Error"].contains
        "GitHub API error: Bad credentials") = false :=
  ⟨rfl, by decide⟩

/-- C4: `delete_thread_by_hash` on an absent hash fails without any
remote call; on a present hash a `404` response is treated exactly like
a `204` — overall success, the entry removed and the index saved —
while any other failing response leaves the state untouched. -/
theorem claim_C4_delete_by_hash
    (st : DelState) (h tk excText : String) (resp : Option ErrResponse)
    (htoken : st.token = some tk) :
    (lookupIndex st.index h = none →
      ∀ resp c y, delete_thread_by_hash resp st h c y =
        { state := st, result := none, remoteCalls := [] }) ∧
    (∀ info, lookupIndex st.index h = some info →
      delete_thread_by_hash DeleteHttp.status404 st h false false =
        { state := { st with index := eraseKey st.index h,
                             saves := st.saves ++ [eraseKey st.index h] },
          result := some { success := true, gist_id := info.gist_id, note := some "already_deleted" },
          remoteCalls := [info.gist_id] } ∧
      delete_thread_by_hash DeleteHttp.status204 st h false false =
        { state := { st with index := eraseKey st.index h,
                             saves := st.saves ++ [eraseKey st.index h] },
          result := some { success := true, gist_id := info.gist_id, note := none },
          remoteCalls := [info.gist_id] } ∧
      lookupIndex (eraseKey st.index h) h = none ∧
      delete_thread_by_hash (DeleteHttp.failure excText resp) st h false false =
        { state := st, result := none, remoteCalls := [info.gist_id] }) := by
  refine ⟨?_, ?_⟩
  · intro hnone resp c y
    simp [delete_thread_by_hash, hnone]
  · intro info hfound
    refine ⟨?_, ?_, lookupIndex_eraseKey st.index h, ?_⟩
    · simp [delete_thread_by_hash, hfound, delete_gist, htoken]
    · simp [delete_thread_by_hash, hfound, delete_gist, htoken]
    · simp [delete_thread_by_hash, hfound, delete_gist, htoken]

/-- Witness for C4: deleting a tracked hash whose remote resource is
already gone (404) still succeeds and removes the entry. -/
theorem claim_C4_witness :
    ({ token := some "tok", index := [("h1", entryA)], saves := [] } : DelState).token = some "tok" ∧
    lookupIndex [("h1", entryA)] "h1" = some entryA ∧
    delete_thread_by_hash DeleteHttp.status404
        { token := some "tok", index := [("h1", entryA)], saves := [] } "h1" false false =
      { state := { token := some "tok", index := eraseKey [("h1", entryA)] "h1",
                   saves := [eraseKey [("h1", entryA)] "h1"] },
        result := some { success := true, gist_id := entryA.gist_id, note := some "already_deleted" },
        remoteCalls := [entryA.gist_id] } := by
  refine ⟨rfl, rfl, ?_⟩
  exact ((claim_C4_delete_by_hash { token := some "tok", index := [("h1", entryA)], saves := [] }
    "h1" "tok" "x" none rfl).2 entryA rfl).1

/-- C6: the reconciler's candidate set is exactly the listed gists whose
description contains the fixed prefix or whose files include one of the
fixed artifact names, the orphan set is exactly the candidates whose id
the Index Store does not reference, dry-run mode reports the orphan set
and issues no delete call, and for the listing `A` (tracked), `B`
(convention, untracked), `C` (unrelated) the orphan set is exactly
`[B]`. -/
theorem claim_C6_orphan_detection (st : DelState) (tk : String) (gists : List RemoteGist)
    (htoken : st.token = some tk) :
    (∀ y, cleanup_orphaned_gists st (some gists) true y =
      (some (orphanSet gists st.index), [])) ∧
    (∀ g, g ∈ orphanSet gists st.index ↔
      (g ∈ gists ∧ matchesConvention g = true ∧ (knownGistIds st.index).contains g.id = false)) ∧
    orphanSet [gistA, gistB, gistC] [("h1", entryA)] = [gistB] := by
  refine ⟨?_, ?_, by decide⟩
  · intro y
    unfold cleanup_orphaned_gists
    rw [htoken]
    by_cases he : (orphanSet gists st.index).isEmpty <;> simp [he]
  · intro g
    simp [orphanSet, candidateGists, List.mem_filter, knownGistIds, and_assoc]
    tauto

/-- Witness for C6: dry-run cleanup over the three-gist listing reports
the orphan set and issues no deletes. -/
theorem claim_C6_witness :
    ({ token := some "tok", index := [("h1", entryA)], saves := [] } : DelState).token = some "tok" ∧
    cleanup_orphaned_gists { token := some "tok", index := [("h1", entryA)], saves := [] }
        (some [gistA, gistB, gistC]) true false =
      (some (orphanSet [gistA, gistB, gistC] [("h1", entryA)]), []) := by
  refine ⟨rfl, ?_⟩
  exact (claim_C6_orphan_detection { token := some "tok", index := [("h1", entryA)], saves := [] }
    "tok" [gistA, gistB, gistC] rfl).1 false

end ThreadPublisher
